import Mathlib

/-
  Verification development for the radiothermostat accessory
  (src/index.ts, src/radiothermostat.ts).

  The accessory mediates between HomeKit characteristic handlers and a
  network thermostat.  We embed the handlers as pure functions over an
  explicit accessory state.  Device responses are passed in as explicit
  `Outcome` arguments (the device is an external collaborator); every
  device request a handler issues is recorded in an output list, so
  "no network call" is the statement that this list is empty.

  Times are `Int` (milliseconds since epoch, as Date.getTime yields an
  integer); temperatures and the configured interval are `Rat`
  (JavaScript numbers, modelled exactly).
-/

namespace RadioThermostat

/-- HomeKit TargetHeatingCoolingState characteristic codes. -/
def OFF : Int := 0

/-- HEAT mode code. -/
def HEAT : Int := 1

/-- COOL mode code. -/
def COOL : Int := 2

/-- AUTO mode code (never exposed to the boundary; resolved on read). -/
def AUTO : Int := 3

/-- TemperatureDisplayUnits.FAHRENHEIT code. -/
def FAHRENHEIT : Int := 1

/-- The decoded body of a GET /tstat response, as used by the handlers. -/
structure TstatState where
  temp : Rat
  tmode : Int
  tstate : Int
  fstate : Int
  t_heat : Rat
  t_cool : Rat
deriving DecidableEq, Repr

/-- A JSON scalar as stored in the untyped `model` field (the humidity
getter assigns a number into it, so the field is not string-typed). -/
inductive JsonVal where
  | str (s : String)
  | num (q : Rat)
deriving DecidableEq, Repr

/-- The mutable fields of the `Radiothermostat` accessory instance. -/
structure AccessoryState where
  lastGetStateTime : Int
  getStateCache : Option TstatState
  getStateInProgress : Bool
  model : Option JsonVal
  sysInfo : Option (String × String)
deriving DecidableEq, Repr

/-- A device request, identified by endpoint, method and body. -/
inductive DeviceRequest where
  | getTstat
  | postTmode (m : Int)
  | postTheat (t : Int)
  | postTcool (t : Int)
  | postFmode (m : Int)
  | getModel
  | getHumidity
  | getSys
deriving DecidableEq, Repr

/-- Outcome of a device interaction or of a handler: success, the single
communication-failure error kind (HapStatusError), or a JavaScript
runtime fault (e.g. reading a field of an undefined cache). -/
inductive Outcome (α : Type) where
  | ok (a : α)
  | commFailure
  | jsFault
deriving DecidableEq, Repr

/-- Map over a successful outcome. -/
def Outcome.map {α β : Type} (f : α → β) : Outcome α → Outcome β
  | .ok a => .ok (f a)
  | .commFailure => .commFailure
  | .jsFault => .jsFault

/-- Result of running one handler: the accessory state afterwards, the
value returned (or the error thrown), and the device requests issued. -/
structure StepOut (α : Type) where
  state : AccessoryState
  result : Outcome α
  requests : List DeviceRequest
deriving DecidableEq, Repr

/-- fahrenheitToCelsius: (fahrenheit - 32) * 5/9. -/
def fahrenheitToCelsius (fahrenheit : Rat) : Rat := (fahrenheit - 32) * 5 / 9

/-- celsiusToFahrenheit: celsius * 9/5 + 32. -/
def celsiusToFahrenheit (celsius : Rat) : Rat := celsius * 9 / 5 + 32

/-- JavaScript Math.round: round half toward positive infinity. -/
def mathRound (x : Rat) : Int := (x + 1 / 2).floor

/-- Constructor normalization of config.min_poll_interval:
undefined becomes 5000, below 3000 becomes 3000, above 15000 becomes
15000, anything else is kept. -/
def clampMinPollInterval (c : Option Rat) : Rat :=
  match c with
  | none => 5000
  | some v => if v < 3000 then 3000 else if v > 15000 then 15000 else v

/-- getState, as executed by a single caller that finds the
getStateInProgress gate clear (the concurrent interleaving semantics is
`Step` below).  `resp` is the device answer to GET /tstat, consulted
only when a refresh is actually issued. -/
def getState (interval : Rat) (now : Int) (resp : Outcome TstatState)
    (st : AccessoryState) : StepOut (Option TstatState) :=
  if ((now - st.lastGetStateTime : Int) : Rat) > interval then
    match resp with
    | .ok s =>
        ⟨{ st with
            getStateCache := some s
            lastGetStateTime := now
            getStateInProgress := false },
          .ok (some s), [.getTstat]⟩
    | _ =>
        ⟨{ st with getStateInProgress := false }, .commFailure, [.getTstat]⟩
  else ⟨st, .ok st.getStateCache, []⟩

/-- Sequence a handler body after getState, faulting if the cache is
still undefined (the JavaScript would throw reading a field of
undefined). -/
def bindState {α : Type} (g : StepOut (Option TstatState))
    (k : AccessoryState → TstatState → StepOut α) : StepOut α :=
  match g.result with
  | .ok (some s) =>
      let r := k g.state s
      ⟨r.state, r.result, g.requests ++ r.requests⟩
  | .ok none => ⟨g.state, .jsFault, g.requests⟩
  | .commFailure => ⟨g.state, .commFailure, g.requests⟩
  | .jsFault => ⟨g.state, .jsFault, g.requests⟩

/-- The AUTO-resolution branch of onTargetHeatingCoolingStateGet,
transcribed with its literal branch nesting: the `else` is attached to
the `temp > 85` test, not the `temp < 60` one. -/
def resolveAutoTmode (s : TstatState) : TstatState :=
  let s1 := if s.temp < 60 then { s with tmode := HEAT } else s
  if s1.temp > 85 then { s1 with tmode := COOL } else { s1 with tmode := OFF }

/-- onTargetHeatingCoolingStateGet.  When the raw tmode is AUTO it is
resolved from the temperature, the resolved mode is assigned into the
snapshot object (which is the cached object, so the cache is mutated in
place) and written back to the device with an awaited POST whose
outcome is `writeBackResp`. -/
def onTargetHeatingCoolingStateGet (interval : Rat) (now : Int)
    (stateResp : Outcome TstatState) (writeBackResp : Outcome Unit)
    (st : AccessoryState) : StepOut Int :=
  bindState (getState interval now stateResp st) fun st1 s =>
    if s.tmode = AUTO then
      let s2 := resolveAutoTmode s
      let st2 := { st1 with getStateCache := some s2 }
      match writeBackResp with
      | .ok _ => ⟨st2, .ok s2.tmode, [.postTmode s2.tmode]⟩
      | _ => ⟨st2, .commFailure, [.postTmode s2.tmode]⟩
    else ⟨st1, .ok s.tmode, []⟩

/-- onCurrentHeatingCoolingStateGet: tstate of the (possibly refreshed)
state. -/
def onCurrentHeatingCoolingStateGet (interval : Rat) (now : Int)
    (stateResp : Outcome TstatState) (st : AccessoryState) : StepOut Int :=
  bindState (getState interval now stateResp st) fun st1 s =>
    ⟨st1, .ok s.tstate, []⟩

/-- onCurrentTemperatureGet: temp converted to Celsius. -/
def onCurrentTemperatureGet (interval : Rat) (now : Int)
    (stateResp : Outcome TstatState) (st : AccessoryState) : StepOut Rat :=
  bindState (getState interval now stateResp st) fun st1 s =>
    ⟨st1, .ok (fahrenheitToCelsius s.temp), []⟩

/-- onTargetTemperatureGet: the per-mode setpoint (t_heat for HEAT,
t_cool for COOL, otherwise the current temp) converted to Celsius. -/
def onTargetTemperatureGet (interval : Rat) (now : Int)
    (stateResp : Outcome TstatState) (st : AccessoryState) : StepOut Rat :=
  bindState (getState interval now stateResp st) fun st1 s =>
    let targetTemp :=
      if s.tmode = HEAT then s.t_heat
      else if s.tmode = COOL then s.t_cool
      else s.temp
    ⟨st1, .ok (fahrenheitToCelsius targetTemp), []⟩

/-- onTargetTemperatureSet.  The Celsius input is converted and rounded,
then POSTed as t_heat (HEAT) or t_cool (COOL); the switch has no case
for other modes, so nothing is sent.  The POST is issued without
`await`: its outcome `postResp` never reaches the handler, which is why
it does not occur on the right-hand side. -/
def onTargetTemperatureSet (interval : Rat) (now : Int)
    (stateResp : Outcome TstatState) (postResp : Outcome Unit)
    (st : AccessoryState) (targetTempCelsius : Rat) : StepOut Unit :=
  let targetTemp := mathRound (celsiusToFahrenheit targetTempCelsius)
  bindState (getState interval now stateResp st) fun st1 s =>
    if s.tmode = HEAT then ⟨st1, .ok (), [.postTheat targetTemp]⟩
    else if s.tmode = COOL then ⟨st1, .ok (), [.postTcool targetTemp]⟩
    else ⟨st1, .ok (), []⟩

/-- onTargetHeatingCoolingStateSet: awaited POST of the requested tmode,
then re-read of the target temperature (pushed to the boundary). -/
def onTargetHeatingCoolingStateSet (interval : Rat) (now : Int)
    (postResp : Outcome Unit) (stateResp : Outcome TstatState)
    (st : AccessoryState) (targetState : Int) : StepOut Unit :=
  match postResp with
  | .ok _ =>
      let g := onTargetTemperatureGet interval now stateResp st
      ⟨g.state, g.result.map (fun _ => ()), .postTmode targetState :: g.requests⟩
  | _ => ⟨st, .commFailure, [.postTmode targetState]⟩

/-- onTemperatureDisplayUnitsGet: always Fahrenheit, no device traffic. -/
def onTemperatureDisplayUnitsGet (st : AccessoryState) : StepOut Int :=
  ⟨st, .ok FAHRENHEIT, []⟩

/-- onTemperatureDisplayUnitsSet: accepted and ignored. -/
def onTemperatureDisplayUnitsSet (st : AccessoryState) (v : Int) : StepOut Unit :=
  ⟨st, .ok (), []⟩

/-- onFanActiveGet: fstate of the (possibly refreshed) state. -/
def onFanActiveGet (interval : Rat) (now : Int)
    (stateResp : Outcome TstatState) (st : AccessoryState) : StepOut Int :=
  bindState (getState interval now stateResp st) fun st1 s =>
    ⟨st1, .ok s.fstate, []⟩

/-- onFanActiveSet: awaited POST of fmode 0 (inactive) or 2. -/
def onFanActiveSet (postResp : Outcome Unit) (st : AccessoryState)
    (active : Int) : StepOut Unit :=
  let fmode : Int := if active = 0 then 0 else 2
  match postResp with
  | .ok _ => ⟨st, .ok (), [.postFmode fmode]⟩
  | _ => ⟨st, .commFailure, [.postFmode fmode]⟩

/-- onGetModel: fetch GET /tstat/model once, cache the result in
`model`, swallow failures into the sentinel string. -/
def onGetModel (modelResp : Outcome JsonVal) (st : AccessoryState) :
    StepOut JsonVal :=
  match st.model with
  | some m => ⟨st, .ok m, []⟩
  | none =>
      match modelResp with
      | .ok v => ⟨{ st with model := some v }, .ok v, [.getModel]⟩
      | _ => ⟨{ st with model := some (.str "unknown") },
              .ok (.str "unknown"), [.getModel]⟩

/-- getInfo: fetch GET /sys once, cache serial and firmware, swallow
failures into the sentinel strings. -/
def getInfo (sysResp : Outcome (String × String)) (st : AccessoryState) :
    StepOut (String × String) :=
  match st.sysInfo with
  | some i => ⟨st, .ok i, []⟩
  | none =>
      match sysResp with
      | .ok i => ⟨{ st with sysInfo := some i }, .ok i, [.getSys]⟩
      | _ => ⟨{ st with sysInfo := some ("unknown", "unknown") },
              .ok ("unknown", "unknown"), [.getSys]⟩

/-- onCurrentRelativeHumidityGet, transcribed literally: the chained
assignment `const humidity = this.model = await ...` stores the fetched
humidity number into the `model` field before returning it.  A failing
request throws before the assignment, leaving `model` untouched. -/
def onCurrentRelativeHumidityGet (humidityResp : Outcome Rat)
    (st : AccessoryState) : StepOut Rat :=
  match humidityResp with
  | .ok h => ⟨{ st with model := some (.num h) }, .ok h, [.getHumidity]⟩
  | _ => ⟨st, .commFailure, [.getHumidity]⟩

/-- getState on the cached (no-refresh) path returns the state and cache
unchanged and issues no request. -/
theorem getState_fresh {interval : Rat} {now : Int}
    {resp : Outcome TstatState} {st : AccessoryState}
    (hfresh : ¬ ((now - st.lastGetStateTime : Int) : Rat) > interval) :
    getState interval now resp st = ⟨st, .ok st.getStateCache, []⟩ := by
  unfold getState
  rw [if_neg hfresh]

/-- A concrete snapshot fixture for witnesses. -/
def snapA : TstatState := ⟨70, 1, 0, 0, 68, 75⟩

/-- A concrete accessory state with a fresh cache (fetched at t=1000). -/
def stFresh : AccessoryState :=
  { lastGetStateTime := 1000
    getStateCache := some snapA
    getStateInProgress := false
    model := none
    sysInfo := none }

/-- C3: when the elapsed time since the last successful fetch is at most
the configured minimum poll interval (any interval in [3000,15000] ms),
getState issues no device request and returns the cached snapshot with
the whole accessory state, fetch timestamp included, unchanged. -/
theorem getState_cached_no_request (interval : Rat) (now : Int)
    (resp : Outcome TstatState) (st : AccessoryState)
    (hlo : 3000 ≤ interval) (hhi : interval ≤ 15000)
    (hfresh : ((now - st.lastGetStateTime : Int) : Rat) ≤ interval) :
    getState interval now resp st = ⟨st, .ok st.getStateCache, []⟩ :=
  getState_fresh (not_lt.mpr hfresh)

/-- Witness for C3 at a concrete state: cache fetched at t=1000, read at
t=2000 with interval 5000. -/
theorem getState_cached_no_request_witness :
    getState 5000 2000 .commFailure stFresh =
      ⟨stFresh, .ok stFresh.getStateCache, []⟩ :=
  getState_cached_no_request 5000 2000 .commFailure stFresh
    (by decide) (by decide) (by decide)

/-- C4: a failed refresh clears the gate, propagates the communication
failure, and leaves cache and timestamp exactly as before (the returned
state is the old one with only getStateInProgress forced to false, which
it already was); a subsequent successful refresh overwrites the
snapshot. -/
theorem getState_failure_preserves_cache (interval : Rat) (now now2 : Int)
    (st : AccessoryState) (s2 : TstatState)
    (hstale : ((now - st.lastGetStateTime : Int) : Rat) > interval)
    (hstale2 : ((now2 - st.lastGetStateTime : Int) : Rat) > interval) :
    getState interval now .commFailure st =
      ⟨{ st with getStateInProgress := false }, .commFailure, [.getTstat]⟩ ∧
    (getState interval now2 (.ok s2)
        { st with getStateInProgress := false }).state.getStateCache = some s2 := by
  constructor
  · unfold getState
    rw [if_pos hstale]
  · unfold getState
    have h2 : ((now2 - ({ st with getStateInProgress := false } :
        AccessoryState).lastGetStateTime : Int) : Rat) > interval := hstale2
    rw [if_pos h2]

/-- Witness for C4: stale cache from t=1000, failed refresh at t=20000,
successful refresh at t=30000 with interval 5000. -/
theorem getState_failure_preserves_cache_witness :
    getState 5000 20000 .commFailure stFresh =
      ⟨{ stFresh with getStateInProgress := false }, .commFailure, [.getTstat]⟩ ∧
    (getState 5000 30000 (.ok snapA)
        { stFresh with getStateInProgress := false }).state.getStateCache =
      some snapA :=
  getState_failure_preserves_cache 5000 20000 30000 stFresh snapA
    (by decide) (by decide)

/-- C8: min_poll_interval normalization — absent becomes 5000, below
3000 becomes 3000, above 15000 becomes 15000, in-range values are kept,
and the result always lies in [3000, 15000]. -/
theorem minPollInterval_clamped (c : Option Rat) :
    (c = none → clampMinPollInterval c = 5000) ∧
    (∀ v, c = some v → v < 3000 → clampMinPollInterval c = 3000) ∧
    (∀ v, c = some v → v > 15000 → clampMinPollInterval c = 15000) ∧
    (∀ v, c = some v → 3000 ≤ v → v ≤ 15000 → clampMinPollInterval c = v) ∧
    3000 ≤ clampMinPollInterval c ∧ clampMinPollInterval c ≤ 15000 := by
  rcases c with _ | v
  · exact ⟨fun _ => rfl,
      fun v h => absurd h (by simp),
      fun v h => absurd h (by simp),
      fun v h => absurd h (by simp),
      by norm_num [clampMinPollInterval],
      by norm_num [clampMinPollInterval]⟩
  · refine ⟨fun h => Option.noConfusion h, ?_, ?_, ?_, ?_, ?_⟩
    · intro w h hlt
      cases Option.some.inj h
      simp [clampMinPollInterval, hlt]
    · intro w h hgt
      cases Option.some.inj h
      have h1 : ¬ v < 3000 := by linarith
      simp [clampMinPollInterval, h1, hgt]
    · intro w h hlo hhi
      cases Option.some.inj h
      have h1 : ¬ v < 3000 := not_lt.mpr hlo
      have h2 : ¬ v > 15000 := not_lt.mpr hhi
      simp [clampMinPollInterval, h1, h2]
    · simp only [clampMinPollInterval]
      split_ifs with h1 h2
      · norm_num
      · norm_num
      · exact not_lt.mp h1
    · simp only [clampMinPollInterval]
      split_ifs with h1 h2
      · norm_num
      · norm_num
      · exact not_lt.mp h2

/-- Witness for C8: an in-range configured value is kept unchanged. -/
theorem minPollInterval_clamped_witness :
    clampMinPollInterval (some 4000) = 4000 :=
  (minPollInterval_clamped (some 4000)).2.2.2.1 4000 rfl (by decide) (by decide)

/-- C9: the temperature conversions round-trip exactly over exact
rational arithmetic: celsiusToFahrenheit (fahrenheitToCelsius x) = x. -/
theorem conversion_round_trip (x : Rat) :
    celsiusToFahrenheit (fahrenheitToCelsius x) = x := by
  unfold celsiusToFahrenheit fahrenheitToCelsius
  ring

/-- A cached snapshot with raw target mode AUTO and temperature 55. -/
def auto55State : AccessoryState :=
  { lastGetStateTime := 1000
    getStateCache := some ⟨55, 3, 0, 0, 68, 75⟩
    getStateInProgress := false
    model := none
    sysInfo := none }

/-- A cached snapshot with raw target mode AUTO and temperature 70. -/
def auto70State : AccessoryState :=
  { lastGetStateTime := 1000
    getStateCache := some ⟨70, 3, 0, 0, 68, 75⟩
    getStateInProgress := false
    model := none
    sysInfo := none }

/-- C1 (code bug): with raw tmode AUTO and current temperature 55 the
handler's dangling else overrides the HEAT assignment, so it returns OFF
and writes back tmode 0 — not HEAT as the claim (and the code's own
comment) state. -/
theorem targetMode_auto55_resolves_off :
    (onTargetHeatingCoolingStateGet 5000 2000 .commFailure (.ok ())
        auto55State).result = .ok OFF ∧
    (onTargetHeatingCoolingStateGet 5000 2000 .commFailure (.ok ())
        auto55State).requests = [.postTmode OFF] ∧
    OFF ≠ HEAT := by decide

/-- State whose model cache is already populated with a model string. -/
def modelCachedState : AccessoryState :=
  { lastGetStateTime := 0
    getStateCache := none
    getStateInProgress := false
    model := some (.str "CT50")
    sysInfo := none }

/-- C6 (code bug): a populated model cache is served without refetching
and a failed initial probe yields the "unknown" sentinel, but a humidity
read overwrites the model cache with the fetched humidity number (the
chained assignment in the humidity getter), contradicting the claim
that no other operation changes it. -/
theorem model_cache_overwritten_by_humidity :
    (onGetModel (.ok (.str "CT50")) modelCachedState).state.model
      = some (.str "CT50") ∧
    (onGetModel (.ok (.str "CT50")) modelCachedState).requests = [] ∧
    (onCurrentRelativeHumidityGet (.ok 45) modelCachedState).state.model
      = some (.num 45) ∧
    some (JsonVal.num 45) ≠ some (JsonVal.str "CT50") ∧
    (onGetModel .commFailure { modelCachedState with model := none }).state.model
      = some (.str "unknown") := by decide

/-- C7: target-temperature writes convert the Celsius input via
c * 9/5 + 32, round with Math.round, and send it as t_heat under HEAT
and t_cool under COOL; under OFF nothing is sent and the handler still
succeeds. -/
theorem targetTemperature_write_routing (interval : Rat) (now : Int)
    (stateResp : Outcome TstatState) (postResp : Outcome Unit)
    (st : AccessoryState) (s : TstatState) (c : Rat)
    (hfresh : ¬ ((now - st.lastGetStateTime : Int) : Rat) > interval)
    (hc : st.getStateCache = some s) :
    (s.tmode = HEAT →
      onTargetTemperatureSet interval now stateResp postResp st c =
        ⟨st, .ok (), [.postTheat (mathRound (c * 9 / 5 + 32))]⟩) ∧
    (s.tmode = COOL →
      onTargetTemperatureSet interval now stateResp postResp st c =
        ⟨st, .ok (), [.postTcool (mathRound (c * 9 / 5 + 32))]⟩) ∧
    (s.tmode = OFF →
      onTargetTemperatureSet interval now stateResp postResp st c =
        ⟨st, .ok (), []⟩) := by
  have hg : getState interval now stateResp st = ⟨st, .ok st.getStateCache, []⟩ :=
    getState_fresh hfresh
  refine ⟨?_, ?_, ?_⟩ <;> intro hm <;>
    simp [onTargetTemperatureSet, bindState, hg, hc, hm, celsiusToFahrenheit,
      HEAT, COOL, OFF]

/-- Witness for C7: HEAT mode, 20 degrees Celsius. -/
theorem targetTemperature_write_routing_witness :
    onTargetTemperatureSet 5000 2000 .commFailure (.ok ()) stFresh 20 =
      ⟨stFresh, .ok (), [.postTheat (mathRound (20 * 9 / 5 + 32))]⟩ :=
  (targetTemperature_write_routing 5000 2000 .commFailure (.ok ()) stFresh snapA 20
    (by decide) rfl).1 (by decide)

/-- C10: the setpoint POST is issued without await, so with target mode
HEAT or COOL the handler issues the POST and completes successfully,
and its whole output is identical whether the POST fails or succeeds. -/
theorem targetTemperature_write_ignores_post_failure (interval : Rat) (now : Int)
    (stateResp : Outcome TstatState) (st : AccessoryState) (s : TstatState) (c : Rat)
    (hfresh : ¬ ((now - st.lastGetStateTime : Int) : Rat) > interval)
    (hc : st.getStateCache = some s)
    (hm : s.tmode = HEAT ∨ s.tmode = COOL) :
    (onTargetTemperatureSet interval now stateResp .commFailure st c).result
      = .ok () ∧
    onTargetTemperatureSet interval now stateResp .commFailure st c =
      onTargetTemperatureSet interval now stateResp (.ok ()) st c ∧
    (onTargetTemperatureSet interval now stateResp .commFailure st c).requests
      ≠ [] := by
  have hg : getState interval now stateResp st = ⟨st, .ok st.getStateCache, []⟩ :=
    getState_fresh hfresh
  rcases hm with hm | hm <;>
    simp [onTargetTemperatureSet, bindState, hg, hc, hm, HEAT, COOL]

/-- Witness for C10: HEAT mode, 20 degrees Celsius. -/
theorem targetTemperature_write_ignores_post_failure_witness :
    (onTargetTemperatureSet 5000 2000 .commFailure .commFailure stFresh 20).result
      = .ok () :=
  (targetTemperature_write_ignores_post_failure 5000 2000 .commFailure stFresh
    snapA 20 (by decide) rfl (Or.inl (by decide))).1

/-- C5 counterexample: the target-mode read on a cached AUTO snapshot is
not a getState refresh (it issues only the tmode write-back, no GET of
/tstat), yet it changes the cached snapshot: with cached tmode AUTO and
temp 70 the cache's tmode becomes OFF in place. -/
theorem cache_mutated_by_target_mode_read :
    (onTargetHeatingCoolingStateGet 5000 2000 .commFailure (.ok ())
        auto70State).requests = [.postTmode OFF] ∧
    (onTargetHeatingCoolingStateGet 5000 2000 .commFailure (.ok ())
        auto70State).state.getStateCache ≠ auto70State.getStateCache := by
  decide

/-- resolveAutoTmode only rewrites the tmode field. -/
theorem resolveAutoTmode_only_tmode (s : TstatState) :
    resolveAutoTmode s = { s with tmode := (resolveAutoTmode s).tmode } := by
  unfold resolveAutoTmode
  by_cases h1 : s.temp < 60 <;> by_cases h2 : s.temp > 85 <;> simp [h1, h2]

/-- A handler of the shape getState-then-body whose body keeps the
accessory state leaves the state unchanged on the cached path. -/
theorem fresh_bind_state {α : Type} (interval : Rat) (now : Int)
    (stateResp : Outcome TstatState) (st : AccessoryState)
    (k : AccessoryState → TstatState → StepOut α)
    (hfresh : ¬ ((now - st.lastGetStateTime : Int) : Rat) > interval)
    (hk : ∀ s, (k st s).state = st) :
    (bindState (getState interval now stateResp st) k).state = st := by
  rw [getState_fresh hfresh]
  rcases hc : st.getStateCache with _ | s
  · simp [bindState, hc]
  · simp [bindState, hc, hk s]

/-- C5 (amended): between refreshes the cached snapshot is preserved by
every accessor operation except the target-mode read on a raw AUTO
snapshot, which mutates the snapshot's tmode field in place; even then
every field other than tmode is preserved. -/
theorem cache_wholesale_except_auto_resolution (interval : Rat) (now : Int)
    (stateResp : Outcome TstatState) (postResp : Outcome Unit)
    (modelResp : Outcome JsonVal) (humResp : Outcome Rat)
    (sysResp : Outcome (String × String)) (st : AccessoryState)
    (c : Rat) (v active targetState : Int)
    (hfresh : ¬ ((now - st.lastGetStateTime : Int) : Rat) > interval) :
    (getState interval now stateResp st).state.getStateCache
      = st.getStateCache ∧
    (onCurrentHeatingCoolingStateGet interval now stateResp st).state.getStateCache
      = st.getStateCache ∧
    (onCurrentTemperatureGet interval now stateResp st).state.getStateCache
      = st.getStateCache ∧
    (onTargetTemperatureGet interval now stateResp st).state.getStateCache
      = st.getStateCache ∧
    (onTargetTemperatureSet interval now stateResp postResp st c).state.getStateCache
      = st.getStateCache ∧
    (onTemperatureDisplayUnitsGet st).state.getStateCache = st.getStateCache ∧
    (onTemperatureDisplayUnitsSet st v).state.getStateCache = st.getStateCache ∧
    (onFanActiveGet interval now stateResp st).state.getStateCache
      = st.getStateCache ∧
    (onFanActiveSet postResp st active).state.getStateCache = st.getStateCache ∧
    (onGetModel modelResp st).state.getStateCache = st.getStateCache ∧
    (getInfo sysResp st).state.getStateCache = st.getStateCache ∧
    (onCurrentRelativeHumidityGet humResp st).state.getStateCache
      = st.getStateCache ∧
    (onTargetHeatingCoolingStateSet interval now postResp stateResp st
        targetState).state.getStateCache = st.getStateCache ∧
    (∀ s, st.getStateCache = some s → s.tmode ≠ AUTO →
      (onTargetHeatingCoolingStateGet interval now stateResp postResp
          st).state.getStateCache = st.getStateCache) ∧
    (∀ s, st.getStateCache = some s → s.tmode = AUTO →
      (onTargetHeatingCoolingStateGet interval now stateResp postResp
          st).state.getStateCache
        = some { s with tmode := (resolveAutoTmode s).tmode }) := by
  have hg : getState interval now stateResp st = ⟨st, .ok st.getStateCache, []⟩ :=
    getState_fresh hfresh
  refine ⟨?_, ?_, ?_, ?_, ?_, rfl, rfl, ?_, ?_, ?_, ?_, ?_, ?_, ?_, ?_⟩
  · rw [hg]
  · unfold onCurrentHeatingCoolingStateGet
    rw [fresh_bind_state interval now stateResp st _ hfresh (fun s => rfl)]
  · unfold onCurrentTemperatureGet
    rw [fresh_bind_state interval now stateResp st _ hfresh (fun s => rfl)]
  · unfold onTargetTemperatureGet
    rw [fresh_bind_state interval now stateResp st _ hfresh (fun s => rfl)]
  · simp only [onTargetTemperatureSet]
    rw [fresh_bind_state interval now stateResp st _ hfresh
      (fun s => by split <;> [rfl; (split <;> rfl)])]
  · unfold onFanActiveGet
    rw [fresh_bind_state interval now stateResp st _ hfresh (fun s => rfl)]
  · unfold onFanActiveSet
    cases postResp <;> rfl
  · unfold onGetModel
    cases hm : st.model
    · cases modelResp <;> rfl
    · rfl
  · unfold getInfo
    cases hs : st.sysInfo
    · cases sysResp <;> rfl
    · rfl
  · unfold onCurrentRelativeHumidityGet
    cases humResp <;> rfl
  · unfold onTargetHeatingCoolingStateSet
    cases postResp with
    | ok _ =>
        unfold onTargetTemperatureGet
        rw [fresh_bind_state interval now stateResp st _ hfresh (fun s => rfl)]
    | commFailure => rfl
    | jsFault => rfl
  · intro s hcs hne
    unfold onTargetHeatingCoolingStateGet
    rw [getState_fresh hfresh]
    simp [bindState, hcs, hne]
  · intro s hcs hauto
    unfold onTargetHeatingCoolingStateGet
    rw [getState_fresh hfresh]
    cases postResp <;>
      simp [bindState, hcs, hauto, ← resolveAutoTmode_only_tmode]

/-- Witness for C5 (amended): a humidity read leaves the cached snapshot
unchanged at a concrete fresh state. -/
theorem cache_wholesale_except_auto_resolution_witness :
    (onCurrentRelativeHumidityGet (.ok 45) stFresh).state.getStateCache
      = stFresh.getStateCache :=
  (cache_wholesale_except_auto_resolution 5000 2000 .commFailure (.ok ())
    (.ok (.str "CT50")) (.ok 45) (.ok ("serial", "fw")) stFresh 20 1 1 1
    (by decide)).2.2.2.2.2.2.2.2.2.2.2.1

/-
  Interleaving semantics of concurrent getState calls.

  JavaScript runs the handlers on a single-threaded event loop, so code
  between two awaits executes atomically.  getState has exactly two
  suspension points: the 500 ms sleep inside the spin-wait loop and the
  awaited GET /tstat.  Each concurrent caller is a program counter; a
  scheduler step runs one caller's next atomic segment (or advances the
  clock), and carries an observable label recording returns and device
  requests.
-/

/-- Program counter of one concurrent getState call.  `start` is about
to run the gate check (and, if the gate is clear, the staleness check
and possibly the request issue) atomically; `waiting` is parked in the
spin-wait sleep; `inflight t0` has issued GET /tstat with captured
currentTime t0; `done r` has returned r (or thrown). -/
inductive PC where
  | start
  | waiting
  | inflight (t0 : Int)
  | done (r : Outcome (Option TstatState))
deriving DecidableEq, Repr

/-- Shared state of the interleaving semantics: the wall clock and the
three accessory fields getState touches, plus all callers' program
counters. -/
structure SysState where
  now : Int
  lastGetStateTime : Int
  cache : Option TstatState
  inProgress : Bool
  procs : List PC
deriving DecidableEq, Repr

/-- Observable event of one scheduler step. -/
inductive Label where
  | tick (d : Int)
  | yield (i : Nat)
  | cachedReturn (i : Nat) (r : Option TstatState)
  | issueRequest (i : Nat)
  | refreshReturn (i : Nat) (s : TstatState)
  | failReturn (i : Nat)
deriving DecidableEq, Repr

/-- One scheduler step of the concurrent getState semantics. -/
inductive Step (interval : Rat) : SysState → Label → SysState → Prop where
  | tick (σ : SysState) (d : Int) (hd : 0 ≤ d) :
      Step interval σ (.tick d) { σ with now := σ.now + d }
  | enterWait (σ : SysState) (i : Nat) (h : σ.procs[i]? = some .start)
      (hg : σ.inProgress = true) :
      Step interval σ (.yield i) { σ with procs := σ.procs.set i .waiting }
  | wake (σ : SysState) (i : Nat) (h : σ.procs[i]? = some .waiting) :
      Step interval σ (.yield i) { σ with procs := σ.procs.set i .start }
  | serveCached (σ : SysState) (i : Nat) (h : σ.procs[i]? = some .start)
      (hg : σ.inProgress = false)
      (ht : ¬ ((σ.now - σ.lastGetStateTime : Int) : Rat) > interval) :
      Step interval σ (.cachedReturn i σ.cache)
        { σ with procs := σ.procs.set i (.done (.ok σ.cache)) }
  | beginRefresh (σ : SysState) (i : Nat) (h : σ.procs[i]? = some .start)
      (hg : σ.inProgress = false)
      (ht : ((σ.now - σ.lastGetStateTime : Int) : Rat) > interval) :
      Step interval σ (.issueRequest i)
        { σ with
            inProgress := true
            procs := σ.procs.set i (.inflight σ.now) }
  | completeRefresh (σ : SysState) (i : Nat) (t0 : Int) (s : TstatState)
      (h : σ.procs[i]? = some (.inflight t0)) :
      Step interval σ (.refreshReturn i s)
        { σ with
            cache := some s
            lastGetStateTime := t0
            inProgress := false
            procs := σ.procs.set i (.done (.ok (some s))) }
  | failRefresh (σ : SysState) (i : Nat) (t0 : Int)
      (h : σ.procs[i]? = some (.inflight t0)) :
      Step interval σ (.failReturn i)
        { σ with
            inProgress := false
            procs := σ.procs.set i (.done .commFailure) }

/-- A finite execution with its trace of labels. -/
inductive Steps (interval : Rat) : SysState → List Label → SysState → Prop where
  | nil (σ : SysState) : Steps interval σ [] σ
  | cons (σ σ2 σ3 : SysState) (l : Label) (ls : List Label)
      (h1 : Step interval σ l σ2) (h2 : Steps interval σ2 ls σ3) :
      Steps interval σ (l :: ls) σ3

/-- At most one caller has an outstanding GET /tstat. -/
def atMostOneInflight (σ : SysState) : Prop :=
  ∀ (i j : Nat) (ti tj : Int), σ.procs[i]? = some (PC.inflight ti) →
    σ.procs[j]? = some (PC.inflight tj) → i = j

/-- When the gate is clear, no caller has an outstanding request. -/
def gateCoversInflight (σ : SysState) : Prop :=
  σ.inProgress = false → ∀ (i : Nat) (t : Int), σ.procs[i]? ≠ some (PC.inflight t)

/-- The single-flight invariant. -/
def GateInv (σ : SysState) : Prop := atMostOneInflight σ ∧ gateCoversInflight σ

/-- The accessory's initial state: gate clear, every caller at the top
of getState. -/
def InitState (σ : SysState) : Prop :=
  σ.inProgress = false ∧ ∀ (i : Nat) (p : PC), σ.procs[i]? = some p → p = PC.start

/-- Reading an index of a list after a set: either the set index with
the new value, or a different index with the old value. -/
theorem set_elem_cases {l : List PC} {i j : Nat} {x y : PC}
    (h : (l.set i x)[j]? = some y) :
    (i = j ∧ x = y) ∨ (i ≠ j ∧ l[j]? = some y) := by
  rw [List.getElem?_set] at h
  by_cases hij : i = j
  · rw [if_pos hij] at h
    by_cases hlen : i < l.length
    · rw [if_pos hlen] at h
      exact Or.inl ⟨hij, Option.some.inj h⟩
    · rw [if_neg hlen] at h
      exact absurd h (by simp)
  · rw [if_neg hij] at h
    exact Or.inr ⟨hij, h⟩

/-- Every scheduler step preserves the single-flight invariant. -/
theorem step_preserves_gateInv {interval : Rat} {σ σ2 : SysState} {l : Label}
    (hs : Step interval σ l σ2) (hI : GateInv σ) : GateInv σ2 := by
  obtain ⟨huniq, hgate⟩ := hI
  cases hs with
  | tick d hd => exact ⟨huniq, hgate⟩
  | enterWait i h hg =>
      refine ⟨?_, ?_⟩
      · intro a b ta tb ha hb
        rcases set_elem_cases ha with ⟨_, hx⟩ | ⟨_, ha2⟩
        · cases hx
        · rcases set_elem_cases hb with ⟨_, hx⟩ | ⟨_, hb2⟩
          · cases hx
          · exact huniq a b ta tb ha2 hb2
      · intro hP
        have hP2 : σ.inProgress = false := hP
        rw [hg] at hP2
        simp at hP2
  | wake i h =>
      refine ⟨?_, ?_⟩
      · intro a b ta tb ha hb
        rcases set_elem_cases ha with ⟨_, hx⟩ | ⟨_, ha2⟩
        · cases hx
        · rcases set_elem_cases hb with ⟨_, hx⟩ | ⟨_, hb2⟩
          · cases hx
          · exact huniq a b ta tb ha2 hb2
      · intro hP a t ha
        rcases set_elem_cases ha with ⟨_, hx⟩ | ⟨_, ha2⟩
        · cases hx
        · exact hgate hP a t ha2
  | serveCached i h hg ht =>
      refine ⟨?_, ?_⟩
      · intro a b ta tb ha hb
        rcases set_elem_cases ha with ⟨_, hx⟩ | ⟨_, ha2⟩
        · cases hx
        · rcases set_elem_cases hb with ⟨_, hx⟩ | ⟨_, hb2⟩
          · cases hx
          · exact huniq a b ta tb ha2 hb2
      · intro hP a t ha
        rcases set_elem_cases ha with ⟨_, hx⟩ | ⟨_, ha2⟩
        · cases hx
        · exact hgate hP a t ha2
  | beginRefresh i h hg ht =>
      refine ⟨?_, ?_⟩
      · intro a b ta tb ha hb
        rcases set_elem_cases ha with ⟨hia, _⟩ | ⟨_, ha2⟩
        · rcases set_elem_cases hb with ⟨hib, _⟩ | ⟨_, hb2⟩
          · omega
          · exact absurd hb2 (hgate hg b tb)
        · exact absurd ha2 (hgate hg a ta)
      · intro hP
        have hP2 : (true : Bool) = false := hP
        simp at hP2
  | completeRefresh i t0 s h =>
      refine ⟨?_, ?_⟩
      · intro a b ta tb ha hb
        rcases set_elem_cases ha with ⟨_, hx⟩ | ⟨_, ha2⟩
        · cases hx
        · rcases set_elem_cases hb with ⟨_, hx⟩ | ⟨_, hb2⟩
          · cases hx
          · exact huniq a b ta tb ha2 hb2
      · intro _ a t ha
        rcases set_elem_cases ha with ⟨_, hx⟩ | ⟨hia, ha2⟩
        · cases hx
        · exact hia (huniq i a t0 t h ha2)
  | failRefresh i t0 h =>
      refine ⟨?_, ?_⟩
      · intro a b ta tb ha hb
        rcases set_elem_cases ha with ⟨_, hx⟩ | ⟨_, ha2⟩
        · cases hx
        · rcases set_elem_cases hb with ⟨_, hx⟩ | ⟨_, hb2⟩
          · cases hx
          · exact huniq a b ta tb ha2 hb2
      · intro _ a t ha
        rcases set_elem_cases ha with ⟨_, hx⟩ | ⟨hia, ha2⟩
        · cases hx
        · exact hia (huniq i a t0 t h ha2)

/-- Executions preserve the single-flight invariant. -/
theorem steps_preserve_gateInv {interval : Rat} {σ σ2 : SysState}
    {ls : List Label} (h : Steps interval σ ls σ2) : GateInv σ → GateInv σ2 := by
  induction h with
  | nil => exact id
  | cons σx σa σb l ls h1 h2 ih =>
      exact fun h0 => ih (step_preserves_gateInv h1 h0)

/-- The initial state satisfies the single-flight invariant. -/
theorem gateInv_of_init {σ : SysState} (h : InitState σ) : GateInv σ := by
  obtain ⟨hP, hstart⟩ := h
  refine ⟨?_, ?_⟩
  · intro i j ti tj hi hj
    cases hstart i _ hi
  · intro _ i t hi
    cases hstart i _ hi

/-- Only a refresh completion changes the cache. -/
theorem step_cache_eq {interval : Rat} {σ σ2 : SysState} {l : Label}
    (hs : Step interval σ l σ2) (hnr : ∀ i s, l ≠ .refreshReturn i s) :
    σ2.cache = σ.cache := by
  cases hs with
  | completeRefresh i t0 s h => exact absurd rfl (hnr i s)
  | tick d hd => rfl
  | enterWait i h hg => rfl
  | wake i h => rfl
  | serveCached i h hg ht => rfl
  | beginRefresh i h hg ht => rfl
  | failRefresh i t0 h => rfl

/-- Along an execution fragment with no refresh completion, the cache
is constant. -/
theorem steps_cache_eq {interval : Rat} {σ σ2 : SysState} {ls : List Label}
    (h : Steps interval σ ls σ2) :
    (∀ i s, Label.refreshReturn i s ∉ ls) → σ2.cache = σ.cache := by
  induction h with
  | nil => exact fun _ => rfl
  | cons σx σa σb l ls h1 h2 ih =>
      intro hnr
      have hl : ∀ i s, l ≠ Label.refreshReturn i s := by
        intro i s he
        exact hnr i s (by rw [he]; exact List.mem_cons_self _ _)
      have htail : ∀ i s, Label.refreshReturn i s ∉ ls := fun i s hm =>
        hnr i s (List.mem_cons_of_mem _ hm)
      rw [ih htail, step_cache_eq h1 hl]

/-- Along an execution fragment with no refresh completion, every
cached return observes the fragment's (constant) starting cache. -/
theorem steps_returns_cache {interval : Rat} {σ σ2 : SysState} {ls : List Label}
    (h : Steps interval σ ls σ2) :
    (∀ i s, Label.refreshReturn i s ∉ ls) →
    ∀ i r, Label.cachedReturn i r ∈ ls → r = σ.cache := by
  induction h with
  | nil =>
      intro _ i r hm
      cases hm
  | cons σx σa σb l ls h1 h2 ih =>
      intro hnr i r hm
      have htail : ∀ j s, Label.refreshReturn j s ∉ ls := fun j s hmm =>
        hnr j s (List.mem_cons_of_mem _ hmm)
      rcases List.mem_cons.mp hm with he | hm2
      · cases h1 with
        | serveCached j hj hgj htj =>
            exact (Label.cachedReturn.inj he).2
        | tick d hd => cases he
        | enterWait j hj hgj => cases he
        | wake j hj => cases he
        | beginRefresh j hj hgj htj => cases he
        | completeRefresh j t0 s hj => cases he
        | failRefresh j t0 hj => cases he
      · have hcs : σa.cache = σx.cache := step_cache_eq h1 (fun j s he =>
          hnr j s (by rw [he]; exact List.mem_cons_self _ _))
        rw [ih htail i r hm2, hcs]

/-- A step that issues the state request can only fire with the gate
clear. -/
theorem issueRequest_needs_clear_gate {interval : Rat} {σ σ2 : SysState}
    {i : Nat} (h : Step interval σ (.issueRequest i) σ2) :
    σ.inProgress = false := by
  cases h
  assumption

/-- C2: from any initial accessory state, every reachable state has at
most one outstanding GET /tstat and the gate set exactly while one is
outstanding; a state request can only be issued when no earlier refresh
is in flight; and along any fragment in which no refresh completes (one
polling window), the cache is constant and every getState return
observes that same snapshot. -/
theorem getState_single_flight (interval : Rat) (σ0 σ : SysState)
    (ls : List Label) (h0 : InitState σ0) (htr : Steps interval σ0 ls σ) :
    GateInv σ ∧
    (∀ (i : Nat) (σ2 : SysState), Step interval σ (.issueRequest i) σ2 →
      ∀ (j : Nat) (t : Int), σ.procs[j]? ≠ some (PC.inflight t)) ∧
    (∀ (ls2 : List Label) (σ2 : SysState), Steps interval σ ls2 σ2 →
      (∀ (i : Nat) (s : TstatState), Label.refreshReturn i s ∉ ls2) →
      σ2.cache = σ.cache ∧
      ∀ (i : Nat) (r : Option TstatState),
        Label.cachedReturn i r ∈ ls2 → r = σ.cache) := by
  have hI : GateInv σ := steps_preserve_gateInv htr (gateInv_of_init h0)
  refine ⟨hI, ?_, ?_⟩
  · intro i σ2 hstep j t
    exact hI.2 (issueRequest_needs_clear_gate hstep) j t
  · intro ls2 σ2 htr2 hnr
    exact ⟨steps_cache_eq htr2 hnr, steps_returns_cache htr2 hnr⟩

/-- Initial system state with two concurrent callers. -/
def initTwo : SysState := ⟨0, 0, none, false, [.start, .start]⟩

/-- Witness for C2: the conclusion instantiated at a concrete two-caller
initial state with the empty execution. -/
theorem getState_single_flight_witness :
    GateInv initTwo ∧
    (∀ (i : Nat) (σ2 : SysState), Step 5000 initTwo (.issueRequest i) σ2 →
      ∀ (j : Nat) (t : Int), initTwo.procs[j]? ≠ some (PC.inflight t)) ∧
    (∀ (ls2 : List Label) (σ2 : SysState), Steps 5000 initTwo ls2 σ2 →
      (∀ (i : Nat) (s : TstatState), Label.refreshReturn i s ∉ ls2) →
      σ2.cache = initTwo.cache ∧
      ∀ (i : Nat) (r : Option TstatState),
        Label.cachedReturn i r ∈ ls2 → r = initTwo.cache) := by
  have h0 : InitState initTwo := by
    refine ⟨rfl, ?_⟩
    intro i p h
    match i, h with
    | 0, h => exact (Option.some.inj h).symm
    | 1, h => exact (Option.some.inj h).symm
    | _+2, h => exact Option.noConfusion h
  exact getState_single_flight 5000 initTwo initTwo [] h0 (Steps.nil initTwo)

end RadioThermostat
